import Mathlib

/-!
Shallow embedding of the retry/backoff engine of the `terraform-provider-hubspot`
client package (`internal/client`): retry configuration, failure
classification, Retry-After extraction, exponential backoff with jitter, the
retry loop, error decoding, and the contact-search tail.

Modelling conventions:
* Go `time.Duration` (int64 nanoseconds) and `float64` arithmetic are modelled
  over `ℚ`; the final float-to-int64 truncation in `time.Duration(backoff)` is
  not modelled (all properties are stated at the level of exact arithmetic).
* The random source `rand.Float64()` is an injected parameter `r : ℚ`,
  intended range `[0, 1]`.
* Standard-library parsers used by the source are external dependencies:
  `strconv.Atoi` is modelled concretely (sign plus decimal digits spanning the
  whole string; int64 overflow not modelled), while the HTTP-date parser
  `http.ParseTime` and the current instant are injected parameters
  (`parseTime : String → Option Int`, `now : Int`), with `time.Until t`
  modelled as `t - now` (nanoseconds).
* Cancellation of `context.Context` is modelled as a checkpoint oracle
  `ctxDone : Nat → Bool`: checkpoint `2*i` is the pre-attempt check of attempt
  `i` (retry.go lines 102-106) and checkpoint `2*i+1` is the select during the
  backoff wait after attempt `i` (lines 142-147).
* The decoder `json.Unmarshal` into `HubSpotError` is an injected parameter
  `unmarshal : String → Option HubSpotError` (`none` models a decode error).
-/

namespace HubSpot

/-- Model of `RetryConfig` (retry.go lines 14-19): configuration for the retry
logic. `MaxRetries` is a Go `int` used only at nonnegative values, durations
are nanosecond counts and the multiplier a `float64`, all carried over `ℚ`
(and `Nat` for the retry count). -/
structure RetryConfig where
  MaxRetries : Nat
  InitialBackoff : ℚ
  MaxBackoff : ℚ
  Multiplier : ℚ
deriving Repr, DecidableEq

/-- Model of `DefaultRetryConfig` (retry.go lines 22-29): 3 retries, 1 s
initial backoff, 30 s max backoff, multiplier 2.0. -/
def DefaultRetryConfig : RetryConfig :=
  { MaxRetries := 3
    InitialBackoff := 1000000000
    MaxBackoff := 30000000000
    Multiplier := 2 }

deriving instance DecidableEq for Except

/-- Model of an HTTP response as the retry loop sees it: the status code, the
value of the `Retry-After` header (`""` when absent, mirroring
`resp.Header.Get`), and the outcome of reading its body
(`Except readErrorMessage bodyBytes`, bytes carried as a `String`). -/
structure Response where
  StatusCode : Nat
  retryAfterHeader : String
  body : Except String String
deriving Repr, DecidableEq

/-- Outcome of one `httpClient.Do` call: `transportErr` models a non-nil
error (with nil response), `response` a received response. -/
inductive AttemptOutcome where
  | transportErr (msg : String)
  | response (resp : Response)
deriving Repr, DecidableEq

/-- Model of `shouldRetry` (retry.go lines 32-49): retry on any transport
error, on status 429, and on any 5xx status. -/
def shouldRetry (outcome : AttemptOutcome) : Bool :=
  match outcome with
  | .transportErr _ => true
  | .response resp =>
    if resp.StatusCode = 429 then true
    else if 500 ≤ resp.StatusCode ∧ resp.StatusCode < 600 then true
    else false

/-- Model of Go `strconv.Atoi`: an optional sign followed by at least one
decimal digit, spanning the whole string (int64 overflow not modelled). -/
def atoi (s : String) : Option Int :=
  match s.toList with
  | [] => none
  | c :: rest =>
    let neg := c = '-'
    let digits := if c = '-' ∨ c = '+' then rest else c :: rest
    if digits = [] then none
    else if digits.all Char.isDigit then
      let n : Nat := digits.foldl (fun acc d => 10 * acc + (d.toNat - '0'.toNat)) 0
      some (if neg then -(n : Int) else (n : Int))
    else none

/-- Model of `getRetryAfter` (retry.go lines 52-69): extract the `Retry-After`
header as a duration in nanoseconds. An integer value is a count of seconds;
otherwise an HTTP date is tried (with `time.Until t` modelled as `t - now`);
otherwise (including an absent header) the result is `0`. -/
def getRetryAfter (parseTime : String → Option Int) (now : Int)
    (resp : Response) : ℚ :=
  let retryAfter := resp.retryAfterHeader
  if retryAfter = "" then 0
  else
    match atoi retryAfter with
    | some seconds => (seconds : ℚ) * 1000000000
    | none =>
      match parseTime retryAfter with
      | some t => ((t - now : Int) : ℚ)
      | none => 0

/-- Model of the exponential part of `calculateBackoff` (retry.go lines
80-92): `backoff = InitialBackoff * Multiplier ^ attempt`, plus a jitter of
`r * backoff * 0.25`, capped at `MaxBackoff`. -/
def exponentialBackoff (r : ℚ) (attempt : Nat) (config : RetryConfig) : ℚ :=
  let backoff := config.InitialBackoff * config.Multiplier ^ attempt
  let jitter := r * backoff * (1 / 4)
  let backoff2 := backoff + jitter
  if backoff2 > config.MaxBackoff then config.MaxBackoff else backoff2

/-- Model of `calculateBackoff` (retry.go lines 72-93): a positive extracted
`Retry-After` hint is returned as is; otherwise the exponential backoff with
jitter is computed. `resp = none` models the nil response after a transport
error. -/
def calculateBackoff (parseTime : String → Option Int) (now : Int) (r : ℚ)
    (attempt : Nat) (config : RetryConfig) (resp : Option Response) : ℚ :=
  match resp with
  | some resp =>
    let retryAfter := getRetryAfter parseTime now resp
    if retryAfter > 0 then retryAfter
    else exponentialBackoff r attempt config
  | none => exponentialBackoff r attempt config

/-- Model of `HubSpotError` (errors.go lines 11-18). The JSON `context` map
is carried as an association list; `StatusCode` is not part of the wire JSON
(tag `json:"-"`, zero unless filled in from the transport-observed status). -/
structure HubSpotError where
  Status : String
  Message : String
  Category : String := ""
  SubCategory : String := ""
  Context : List (String × String) := []
  StatusCode : Nat := 0
deriving Repr, DecidableEq

/-- Model of `IsNotFound` (errors.go lines 29-31). -/
def HubSpotError.IsNotFound (e : HubSpotError) : Bool :=
  e.StatusCode == 404

/-- Model of `IsRateLimited` (errors.go lines 34-36). -/
def HubSpotError.IsRateLimited (e : HubSpotError) : Bool :=
  e.StatusCode == 429

/-- Model of `IsServerError` (errors.go lines 39-41). -/
def HubSpotError.IsServerError (e : HubSpotError) : Bool :=
  decide (500 ≤ e.StatusCode ∧ e.StatusCode < 600)

/-- Model of `IsAuthError` (errors.go lines 44-46). -/
def HubSpotError.IsAuthError (e : HubSpotError) : Bool :=
  e.StatusCode == 401

/-- Model of `parseErrorResponse` (errors.go lines 49-71). `statusCode` and
`body` are the transport-observed status and the outcome of
`io.ReadAll(resp.Body)` (a `.error msg` models a read failure rendered the
way `%v` renders it); `unmarshal` models `json.Unmarshal` into a
`HubSpotError`. Every branch yields a `HubSpotError`. -/
def parseErrorResponse (unmarshal : String → Option HubSpotError)
    (statusCode : Nat) (body : Except String String) : HubSpotError :=
  match body with
  | .error err =>
    { Status := "error"
      Message := "Failed to read error response: " ++ err
      StatusCode := statusCode }
  | .ok bytes =>
    match unmarshal bytes with
    | none =>
      { Status := "error"
        Message := "HTTP " ++ toString statusCode ++ ": " ++ bytes
        StatusCode := statusCode }
    | some hubspotErr => { hubspotErr with StatusCode := statusCode }

/-- Model of the `error` result of `doWithRetry`: `ctxCancelled` is
`ctx.Err()`, `requestFailed` the `"request failed: %w"` wrap (retry.go line
120), `retriesExhausted` the `"request failed after %d retries: %w"` wrap
(line 128), and `raw` the unwrapped fall-through value at the end of the loop
(line 150, unreachable for the fuel `doWithRetry` supplies). -/
inductive RetryError where
  | ctxCancelled
  | requestFailed (msg : String)
  | retriesExhausted (retries : Nat) (msg : String)
  | raw (msg : String)
deriving Repr, DecidableEq

/-- Instrumented result of the retry loop: the returned `(resp, err)` pair,
the number of transport calls performed, the computed wait durations, and the
cancellation checkpoints consulted, in order. -/
structure RunResult where
  resp : Option Response
  error : Option RetryError
  attempts : Nat
  waits : List ℚ
  checks : List Nat
deriving Repr, DecidableEq

/-- Body of the `for` loop of `doWithRetry` (retry.go lines 100-148),
structurally recursive on the remaining iteration count `fuel`
(`doWithRetry` enters with `fuel = MaxRetries + 1`, matching the loop bound
`attempt ≤ MaxRetries`). `last` carries the previous iteration's
`(resp, err)` pair for the fall-through return; `attempts`, `waits` and
`checks` accumulate the instrumentation. -/
def doWithRetryGo (config : RetryConfig) (ctxDone : Nat → Bool)
    (transport : Nat → AttemptOutcome) (randSrc : Nat → ℚ)
    (parseTime : String → Option Int) (now : Int) :
    Nat → Nat → Option Response × Option String → Nat → List ℚ → List Nat →
      RunResult
  | 0, _attempt, last, attempts, waits, checks =>
    ⟨last.1, last.2.map .raw, attempts, waits, checks⟩
  | fuel + 1, attempt, _last, attempts, waits, checks =>
    let checks1 := checks ++ [2 * attempt]
    if ctxDone (2 * attempt) then
      ⟨none, some .ctxCancelled, attempts, waits, checks1⟩
    else
      let outcome := transport attempt
      let attempts1 := attempts + 1
      match outcome with
      | .response resp =>
        if 200 ≤ resp.StatusCode ∧ resp.StatusCode < 300 then
          ⟨some resp, none, attempts1, waits, checks1⟩
        else if !shouldRetry outcome then
          ⟨some resp, none, attempts1, waits, checks1⟩
        else if attempt = config.MaxRetries then
          ⟨some resp, none, attempts1, waits, checks1⟩
        else
          let backoff :=
            calculateBackoff parseTime now (randSrc attempt) attempt config
              (some resp)
          let checks2 := checks1 ++ [2 * attempt + 1]
          if ctxDone (2 * attempt + 1) then
            ⟨none, some .ctxCancelled, attempts1, waits ++ [backoff], checks2⟩
          else
            doWithRetryGo config ctxDone transport randSrc parseTime now fuel
              (attempt + 1) (some resp, none) attempts1 (waits ++ [backoff])
              checks2
      | .transportErr msg =>
        if !shouldRetry outcome then
          ⟨none, some (.requestFailed msg), attempts1, waits, checks1⟩
        else if attempt = config.MaxRetries then
          ⟨none, some (.retriesExhausted config.MaxRetries msg), attempts1,
            waits, checks1⟩
        else
          let backoff :=
            calculateBackoff parseTime now (randSrc attempt) attempt config
              none
          let checks2 := checks1 ++ [2 * attempt + 1]
          if ctxDone (2 * attempt + 1) then
            ⟨none, some .ctxCancelled, attempts1, waits ++ [backoff], checks2⟩
          else
            doWithRetryGo config ctxDone transport randSrc parseTime now fuel
              (attempt + 1) (none, some msg) attempts1 (waits ++ [backoff])
              checks2

/-- Model of `doWithRetry` (retry.go lines 96-151): run the retry loop from
attempt `0`. -/
def doWithRetry (config : RetryConfig) (ctxDone : Nat → Bool)
    (transport : Nat → AttemptOutcome) (randSrc : Nat → ℚ)
    (parseTime : String → Option Int) (now : Int) : RunResult :=
  doWithRetryGo config ctxDone transport randSrc parseTime now
    (config.MaxRetries + 1) 0 (none, none) 0 [] []

/-- Error type of the modelled `doRequest`: an error propagated from
`doWithRetry`, the structured error decoded from a non-2xx response, or the
(never produced) nil-response-with-nil-error pair. -/
inductive DoRequestError where
  | retry (e : RetryError)
  | hubspot (e : HubSpotError)
  | nilResponse
deriving Repr, DecidableEq

/-- Model of the tail of `doRequest` (client.go lines 96-107): run
`doWithRetry`, then pass any non-2xx response through `parseErrorResponse`.
Request building and body serialization, which precede this in the source,
are not modelled. -/
def doRequest (config : RetryConfig) (ctxDone : Nat → Bool)
    (transport : Nat → AttemptOutcome) (randSrc : Nat → ℚ)
    (parseTime : String → Option Int) (now : Int)
    (unmarshal : String → Option HubSpotError) :
    Except DoRequestError Response :=
  let run := doWithRetry config ctxDone transport randSrc parseTime now
  match run.error with
  | some e => .error (.retry e)
  | none =>
    match run.resp with
    | none => .error .nilResponse
    | some resp =>
      if resp.StatusCode < 200 ∨ 300 ≤ resp.StatusCode then
        .error (.hubspot (parseErrorResponse unmarshal resp.StatusCode resp.body))
      else .ok resp

/-- Model of `Client` (client.go lines 14-20); the `http.Client` handle is
represented only by its timeout. -/
structure Client where
  apiToken : String
  baseURL : String
  apiVersion : String
  timeout : ℚ
  retryConfig : RetryConfig
deriving Repr, DecidableEq

/-- Model of `Config` (client.go lines 23-28). -/
structure Config where
  APIToken : String
  BaseURL : String
  APIVersion : String
  Timeout : ℚ
deriving Repr, DecidableEq

/-- Model of `NewClient` (client.go lines 31-52): fill in defaults and install
`DefaultRetryConfig`. -/
def NewClient (config : Config) : Client :=
  let baseURL := if config.BaseURL = "" then "https://api.hubapi.com" else config.BaseURL
  let apiVersion := if config.APIVersion = "" then "v3" else config.APIVersion
  let timeout := if config.Timeout = 0 then 30000000000 else config.Timeout
  { apiToken := config.APIToken
    baseURL := baseURL
    apiVersion := apiVersion
    timeout := timeout
    retryConfig := DefaultRetryConfig }

/-- Model of `SetRetryConfig` (client.go lines 55-57): an unconditional field
assignment, with no validation of the supplied configuration. -/
def SetRetryConfig (c : Client) (config : RetryConfig) : Client :=
  { c with retryConfig := config }

/-- Model of `Contact` (contacts.go lines 10-16); timestamps as integers and
the property map as an association list. -/
structure Contact where
  ID : String
  Properties : List (String × String) := []
  CreatedAt : Int := 0
  UpdatedAt : Int := 0
  Archived : Bool := false
deriving Repr, DecidableEq

/-- Model of `ContactSearchResponse` (contacts.go lines 42-45). -/
structure ContactSearchResponse where
  Results : List Contact
  Total : Int
deriving Repr, DecidableEq

/-- Model of the tail of `GetContactByEmail` (contacts.go lines 143-151): the
handling of a decoded search response (transport and decode, which precede
it, are not modelled). On `Total == 0 || len(Results) == 0` it builds a
`HubSpotError` whose `Status` string is `"404"` and whose `StatusCode` keeps
its zero value; otherwise it returns the first result. -/
def getContactByEmailResult (email : String)
    (searchResp : ContactSearchResponse) : Except HubSpotError Contact :=
  if searchResp.Total = 0 ∨ searchResp.Results = [] then
    .error { Status := "404"
             Message := "contact with email " ++ email ++ " not found" }
  else
    match searchResp.Results with
    | first :: _ => .ok first
    | [] =>
      .error { Status := "404"
               Message := "contact with email " ++ email ++ " not found" }

/-- Decoded errors always carry the transport-observed status code,
whatever the body and however the JSON decode goes. -/
lemma parseErrorResponse_statusCode (unmarshal : String → Option HubSpotError)
    (statusCode : Nat) (body : Except String String) :
    (parseErrorResponse unmarshal statusCode body).StatusCode = statusCode := by
  rcases body with err | bytes
  · rfl
  · rcases h : unmarshal bytes with _ | e <;> simp [parseErrorResponse, h]

/-- Classification of a received response: retried exactly at 429 and 5xx. -/
lemma shouldRetry_response_iff (resp : Response) :
    shouldRetry (.response resp) = true ↔
      (resp.StatusCode = 429 ∨ (500 ≤ resp.StatusCode ∧ resp.StatusCode < 600)) := by
  simp only [shouldRetry]
  split_ifs with h1 h2
  · simp [h1]
  · simp [h1, h2]
  · simp [h1, h2]

/-- Retryable responses are never 2xx responses. -/
lemma shouldRetry_response_not_2xx (resp : Response)
    (h : shouldRetry (.response resp) = true) :
    ¬(200 ≤ resp.StatusCode ∧ resp.StatusCode < 300) := by
  rcases (shouldRetry_response_iff resp).mp h with h429 | h5xx
  · omega
  · omega

/-- C3: the failure classifier `shouldRetry` is a total Boolean function of
the attempt outcome; it is `true` for every transport-level failure, and on a
received response it is `true` exactly for status 429 and the statuses in
`[500, 600)` — hence `false` for every 2xx status and every 4xx status other
than 429. -/
theorem shouldRetry_characterization :
    (∀ msg, shouldRetry (.transportErr msg) = true) ∧
    ∀ resp : Response,
      shouldRetry (.response resp) = true ↔
        (resp.StatusCode = 429 ∨ (500 ≤ resp.StatusCode ∧ resp.StatusCode < 600)) :=
  ⟨fun _ => rfl, shouldRetry_response_iff⟩

/-- Concrete instances of the classifier characterization: a transport error
and a 503 are retried, a 404 is not. -/
theorem shouldRetry_characterization_witness :
    shouldRetry (.transportErr "connection refused") = true ∧
    shouldRetry (.response ⟨503, "", Except.ok ""⟩) = true ∧
    shouldRetry (.response ⟨404, "", Except.ok ""⟩) ≠ true := by
  refine ⟨shouldRetry_characterization.1 "connection refused", ?_, ?_⟩
  · exact (shouldRetry_characterization.2 ⟨503, "", Except.ok ""⟩).mpr (by norm_num)
  · intro h
    have h404 := (shouldRetry_characterization.2 ⟨404, "", Except.ok ""⟩).mp h
    norm_num at h404

/-- C6: the error decoder is total — modelled by `parseErrorResponse`
returning a `HubSpotError` on every branch — and always carries the
transport-observed status code; on a body read failure the message describes
the read failure, on a JSON parse failure the message embeds the raw body,
and a successfully decoded error is returned with the observed status code
filled in. -/
theorem parseErrorResponse_never_fails (unmarshal : String → Option HubSpotError)
    (statusCode : Nat) (body : Except String String) :
    (parseErrorResponse unmarshal statusCode body).StatusCode = statusCode ∧
    (∀ msg, body = .error msg →
      parseErrorResponse unmarshal statusCode body =
        { Status := "error"
          Message := "Failed to read error response: " ++ msg
          StatusCode := statusCode }) ∧
    (∀ bytes, body = .ok bytes → unmarshal bytes = none →
      parseErrorResponse unmarshal statusCode body =
        { Status := "error"
          Message := "HTTP " ++ toString statusCode ++ ": " ++ bytes
          StatusCode := statusCode }) ∧
    (∀ bytes e, body = .ok bytes → unmarshal bytes = some e →
      parseErrorResponse unmarshal statusCode body =
        { e with StatusCode := statusCode }) := by
  refine ⟨parseErrorResponse_statusCode unmarshal statusCode body, ?_, ?_, ?_⟩
  · rintro msg rfl
    rfl
  · rintro bytes rfl h
    simp [parseErrorResponse, h]
  · rintro bytes e rfl h
    simp [parseErrorResponse, h]

/-- Concrete instances of the decoder safety theorem: an unparsable body and
a read failure, at statuses 418 and 502. -/
theorem parseErrorResponse_never_fails_witness :
    (parseErrorResponse (fun _ => none) 418 (Except.ok "not json")).StatusCode = 418 ∧
    parseErrorResponse (fun _ => none) 418 (Except.ok "not json") =
      { Status := "error"
        Message := "HTTP " ++ toString 418 ++ ": " ++ "not json"
        StatusCode := 418 } ∧
    parseErrorResponse (fun _ => none) 502 (Except.error "boom") =
      { Status := "error"
        Message := "Failed to read error response: " ++ "boom"
        StatusCode := 502 } := by
  refine ⟨(parseErrorResponse_never_fails (fun _ => none) 418 (Except.ok "not json")).1, ?_, ?_⟩
  · exact (parseErrorResponse_never_fails (fun _ => none) 418
      (Except.ok "not json")).2.2.1 "not json" rfl rfl
  · exact (parseErrorResponse_never_fails (fun _ => none) 502
      (Except.error "boom")).2.1 "boom" rfl

/-- C5 counterexample: `SetRetryConfig` performs no validation at all, so a
client whose policy has `MaxBackoff < InitialBackoff` (here 1 ns < 2 ns)
comes into existence with no configuration error anywhere. -/
theorem setRetryConfig_no_validation :
    (SetRetryConfig (NewClient ⟨"token", "", "", 0⟩)
        ⟨3, 2, 1, 2⟩).retryConfig = ⟨3, 2, 1, 2⟩ ∧
    (⟨3, 2, 1, 2⟩ : RetryConfig).MaxBackoff <
      (⟨3, 2, 1, 2⟩ : RetryConfig).InitialBackoff :=
  ⟨rfl, by norm_num⟩

/-- C5 (amended): the default policy installed by `NewClient` satisfies
`InitialBackoff ≤ MaxBackoff`, but the invariant is not enforced anywhere:
`NewClient` always installs the default, and `SetRetryConfig` installs any
supplied configuration unchanged with no construction-time check. -/
theorem retryConfig_default_invariant :
    DefaultRetryConfig.InitialBackoff ≤ DefaultRetryConfig.MaxBackoff ∧
    (∀ config : Config, (NewClient config).retryConfig = DefaultRetryConfig) ∧
    ∀ (c : Client) (config : RetryConfig),
      (SetRetryConfig c config).retryConfig = config :=
  ⟨by norm_num [DefaultRetryConfig], fun _ => rfl, fun _ _ => rfl⟩

/-- Concrete instance of the construction behaviour: a freshly built client
accepts an arbitrary configuration swap. -/
theorem retryConfig_default_invariant_witness :
    (SetRetryConfig (NewClient ⟨"token", "", "", 0⟩) ⟨7, 5, 9, 3⟩).retryConfig =
      ⟨7, 5, 9, 3⟩ :=
  retryConfig_default_invariant.2.2 (NewClient ⟨"token", "", "", 0⟩) ⟨7, 5, 9, 3⟩

/-- C10: when the decoded search response has zero results (`Total = 0` or an
empty result list), `GetContactByEmail` returns no contact and a
`HubSpotError` whose `Status` string is `"404"` but whose `StatusCode` field
keeps its zero value, so the status-code predicate `IsNotFound` evaluates to
`false` on it. -/
theorem getContactByEmail_zero_results (email : String)
    (searchResp : ContactSearchResponse)
    (h : searchResp.Total = 0 ∨ searchResp.Results = []) :
    ∃ e, getContactByEmailResult email searchResp = .error e ∧
      e.Status = "404" ∧ e.StatusCode = 0 ∧ e.IsNotFound = false ∧
      e.Message = "contact with email " ++ email ++ " not found" := by
  unfold getContactByEmailResult
  rw [if_pos h]
  exact ⟨_, rfl, rfl, rfl, rfl, rfl⟩

/-- Concrete instance of the zero-result search behaviour. -/
theorem getContactByEmail_zero_results_witness :
    ∃ e, getContactByEmailResult "nobody@example.com" ⟨[], 0⟩ = .error e ∧
      e.Status = "404" ∧ e.StatusCode = 0 ∧ e.IsNotFound = false ∧
      e.Message = "contact with email " ++ "nobody@example.com" ++ " not found" :=
  getContactByEmail_zero_results "nobody@example.com" ⟨[], 0⟩ (Or.inl rfl)

/-- Closed form of the jittered, clamped exponential backoff: the minimum of
the cap and the jittered base. -/
lemma exponentialBackoff_eq_min (r : ℚ) (attempt : Nat) (config : RetryConfig) :
    exponentialBackoff r attempt config =
      min config.MaxBackoff
        (config.InitialBackoff * config.Multiplier ^ attempt +
          r * (config.InitialBackoff * config.Multiplier ^ attempt) * (1 / 4)) := by
  simp only [exponentialBackoff]
  split_ifs with h
  · exact (min_eq_left h.le).symm
  · exact (min_eq_right (not_lt.mp h)).symm

/-- C2 counterexample, refuting the claim as stated at concrete inputs on
both of its parts: with initialDelay 2, maxDelay 1, multiplier 1, attempt 0
and zero jitter draw, the clamped result 1 lies strictly below the claimed
lower bound `base = initialDelay * multiplier ^ 0 = 2`; and with multiplier
1/2 (no clamping involved) the result strictly decreases from attempt 0 to
attempt 1, refuting the claimed non-decrease "until clamped". -/
theorem calculateBackoff_range_counterexample :
    calculateBackoff (fun _ => none) 0 0 0 ⟨3, 2, 1, 1⟩ none <
      (⟨3, 2, 1, 1⟩ : RetryConfig).InitialBackoff *
        (⟨3, 2, 1, 1⟩ : RetryConfig).Multiplier ^ 0 ∧
    calculateBackoff (fun _ => none) 0 0 1 ⟨3, 4, 100, 1/2⟩ none <
      calculateBackoff (fun _ => none) 0 0 0 ⟨3, 4, 100, 1/2⟩ none := by
  constructor <;> norm_num [calculateBackoff, exponentialBackoff]

/-- C2 (amended): without a server hint `calculateBackoff` is exactly the
jittered exponential backoff; for a jitter draw `r ∈ [0, 1]`, nonnegative
initial delay and multiplier ≥ 1, it lies between `min maxDelay base` and
`min maxDelay (base * 5/4)` where `base = initialDelay * multiplier ^
attemptIndex` (hence within the claimed interval `[base, min maxDelay
(base * 1.25)]` whenever the cap does not bite), and for a fixed draw it is
non-decreasing in the attempt index, the clamped region included. -/
theorem calculateBackoff_range_mono (config : RetryConfig) (r : ℚ)
    (attempt : Nat) (parseTime : String → Option Int) (now : Int)
    (hr0 : 0 ≤ r) (hr1 : r ≤ 1) (hinit : 0 ≤ config.InitialBackoff)
    (hmult : 1 ≤ config.Multiplier) :
    calculateBackoff parseTime now r attempt config none =
      exponentialBackoff r attempt config ∧
    min config.MaxBackoff (config.InitialBackoff * config.Multiplier ^ attempt) ≤
      exponentialBackoff r attempt config ∧
    exponentialBackoff r attempt config ≤
      min config.MaxBackoff
        (config.InitialBackoff * config.Multiplier ^ attempt * (5 / 4)) ∧
    exponentialBackoff r attempt config ≤
      exponentialBackoff r (attempt + 1) config := by
  have hm0 : (0 : ℚ) ≤ config.Multiplier := le_trans zero_le_one hmult
  have hbase : 0 ≤ config.InitialBackoff * config.Multiplier ^ attempt :=
    mul_nonneg hinit (pow_nonneg hm0 attempt)
  have hbase1 : 0 ≤ config.InitialBackoff * config.Multiplier ^ (attempt + 1) :=
    mul_nonneg hinit (pow_nonneg hm0 (attempt + 1))
  have hstep : config.InitialBackoff * config.Multiplier ^ attempt ≤
      config.InitialBackoff * config.Multiplier ^ (attempt + 1) := by
    rw [pow_succ, ← mul_assoc]
    exact le_mul_of_one_le_right hbase hmult
  refine ⟨rfl, ?_, ?_, ?_⟩
  · rw [exponentialBackoff_eq_min]
    refine min_le_min le_rfl ?_
    nlinarith [mul_nonneg (mul_nonneg hr0 hbase) (by norm_num : (0 : ℚ) ≤ 1 / 4)]
  · rw [exponentialBackoff_eq_min]
    refine min_le_min le_rfl ?_
    nlinarith [mul_nonneg hbase (sub_nonneg.mpr hr1)]
  · rw [exponentialBackoff_eq_min, exponentialBackoff_eq_min]
    refine min_le_min le_rfl ?_
    nlinarith [mul_nonneg hr0 (sub_nonneg.mpr hstep)]

/-- Concrete instance of the amended backoff bounds at the default policy,
jitter draw 1/2 and attempt index 2. -/
theorem calculateBackoff_range_mono_witness :
    calculateBackoff (fun _ => none) 0 (1/2) 2 DefaultRetryConfig none =
      exponentialBackoff (1/2) 2 DefaultRetryConfig ∧
    min DefaultRetryConfig.MaxBackoff
        (DefaultRetryConfig.InitialBackoff * DefaultRetryConfig.Multiplier ^ 2) ≤
      exponentialBackoff (1/2) 2 DefaultRetryConfig ∧
    exponentialBackoff (1/2) 2 DefaultRetryConfig ≤
      min DefaultRetryConfig.MaxBackoff
        (DefaultRetryConfig.InitialBackoff * DefaultRetryConfig.Multiplier ^ 2 * (5 / 4)) ∧
    exponentialBackoff (1/2) 2 DefaultRetryConfig ≤
      exponentialBackoff (1/2) 3 DefaultRetryConfig :=
  calculateBackoff_range_mono DefaultRetryConfig (1/2) 2 (fun _ => none) 0
    (by norm_num) (by norm_num) (by norm_num [DefaultRetryConfig])
    (by norm_num [DefaultRetryConfig])

/-- C4: whenever the extracted Retry-After hint is positive, the backoff
computation returns it verbatim — for every jitter draw, attempt index and
policy, so with no jitter added, no clamp to `MaxBackoff`, and no dependence
on the attempt index. -/
theorem calculateBackoff_hint_verbatim (parseTime : String → Option Int)
    (now : Int) (r : ℚ) (attempt : Nat) (config : RetryConfig)
    (resp : Response) (hpos : getRetryAfter parseTime now resp > 0) :
    calculateBackoff parseTime now r attempt config (some resp) =
      getRetryAfter parseTime now resp := by
  simp only [calculateBackoff]
  rw [if_pos hpos]

/-- Concrete instance of the verbatim-hint behaviour: a "Retry-After: 7"
header yields exactly 7 seconds even at attempt 5 with a 2 ns cap. -/
theorem calculateBackoff_hint_verbatim_witness :
    calculateBackoff (fun _ => none) 0 1 5 ⟨3, 1, 2, 2⟩
        (some ⟨429, "7", Except.ok ""⟩) =
      getRetryAfter (fun _ => none) 0 ⟨429, "7", Except.ok ""⟩ ∧
    getRetryAfter (fun _ => none) 0 ⟨429, "7", Except.ok ""⟩ = 7000000000 := by
  have hval : getRetryAfter (fun _ => none) 0 ⟨429, "7", Except.ok ""⟩ =
      7000000000 := by
    show ((7 : Int) : ℚ) * 1000000000 = 7000000000
    norm_num
  refine ⟨?_, hval⟩
  exact calculateBackoff_hint_verbatim (fun _ => none) 0 1 5 ⟨3, 1, 2, 2⟩
    ⟨429, "7", Except.ok ""⟩ (by rw [hval]; norm_num)

/-- C9: the hint extractor handles both encodings and degrades gracefully: a
header value that is a decimal integer `n` yields exactly `n` seconds; a
header value that is not an integer but parses as an HTTP date `t` yields
the duration until `t`; and when neither parses, the extracted hint is `0`
and the backoff computation falls through to the computed exponential
backoff instead of failing the call. -/
theorem getRetryAfter_both_encodings (parseTime : String → Option Int)
    (now : Int) (resp : Response) :
    (∀ n : Int, resp.retryAfterHeader ≠ "" →
      atoi resp.retryAfterHeader = some n →
      getRetryAfter parseTime now resp = (n : ℚ) * 1000000000) ∧
    (∀ t : Int, resp.retryAfterHeader ≠ "" →
      atoi resp.retryAfterHeader = none →
      parseTime resp.retryAfterHeader = some t →
      getRetryAfter parseTime now resp = ((t - now : Int) : ℚ)) ∧
    (atoi resp.retryAfterHeader = none →
      parseTime resp.retryAfterHeader = none →
      getRetryAfter parseTime now resp = 0 ∧
      ∀ r attempt config,
        calculateBackoff parseTime now r attempt config (some resp) =
          exponentialBackoff r attempt config) := by
  refine ⟨?_, ?_, ?_⟩
  · intro n hne ha
    simp only [getRetryAfter]
    rw [if_neg hne, ha]
  · intro t hne ha hp
    simp only [getRetryAfter]
    rw [if_neg hne, ha, hp]
  · intro ha hp
    have hg : getRetryAfter parseTime now resp = 0 := by
      simp only [getRetryAfter]
      by_cases hemp : resp.retryAfterHeader = ""
      · rw [if_pos hemp]
      · rw [if_neg hemp, ha, hp]
    refine ⟨hg, fun r attempt config => ?_⟩
    simp only [calculateBackoff]
    rw [hg]
    norm_num

/-- Concrete instances of the three Retry-After encodings: the integer "7",
an opaque date string parsed by an injected date parser, and a string neither
encoding accepts. -/
theorem getRetryAfter_both_encodings_witness :
    getRetryAfter (fun _ => none) 0 ⟨429, "7", Except.ok ""⟩ =
      ((7 : Int) : ℚ) * 1000000000 ∧
    getRetryAfter (fun _ => some 42) 40 ⟨429, "later", Except.ok ""⟩ =
      ((42 - 40 : Int) : ℚ) ∧
    getRetryAfter (fun _ => none) 0 ⟨429, "soon", Except.ok ""⟩ = 0 ∧
    calculateBackoff (fun _ => none) 0 (1/2) 2 DefaultRetryConfig
        (some ⟨429, "soon", Except.ok ""⟩) =
      exponentialBackoff (1/2) 2 DefaultRetryConfig := by
  refine ⟨?_, ?_, ?_, ?_⟩
  · exact (getRetryAfter_both_encodings (fun _ => none) 0
      ⟨429, "7", Except.ok ""⟩).1 7 (by decide) (by decide)
  · exact (getRetryAfter_both_encodings (fun _ => some 42) 40
      ⟨429, "later", Except.ok ""⟩).2.1 42 (by decide) (by decide) rfl
  · exact ((getRetryAfter_both_encodings (fun _ => none) 0
      ⟨429, "soon", Except.ok ""⟩).2.2 (by decide) rfl).1
  · exact ((getRetryAfter_both_encodings (fun _ => none) 0
      ⟨429, "soon", Except.ok ""⟩).2.2 (by decide) rfl).2 (1/2) 2
      DefaultRetryConfig

/-- Running the loop against a transport that fails at the transport level on
every attempt consumes all remaining iterations and ends in the
retries-exhausted wrap of the last failure message. -/
lemma doWithRetryGo_transportErr_exhausts (config : RetryConfig)
    (ctxDone : Nat → Bool) (transport : Nat → AttemptOutcome)
    (randSrc : Nat → ℚ) (parseTime : String → Option Int) (now : Int)
    (msgs : Nat → String) (hctx : ∀ c, ctxDone c = false)
    (htr : ∀ i, transport i = .transportErr (msgs i)) :
    ∀ (fuel attempt : Nat) (last : Option Response × Option String)
      (attempts : Nat) (waits : List ℚ) (checks : List Nat),
      attempt + fuel = config.MaxRetries + 1 → 0 < fuel →
      (doWithRetryGo config ctxDone transport randSrc parseTime now fuel
          attempt last attempts waits checks).attempts = attempts + fuel ∧
      (doWithRetryGo config ctxDone transport randSrc parseTime now fuel
          attempt last attempts waits checks).error =
        some (.retriesExhausted config.MaxRetries (msgs config.MaxRetries)) ∧
      (doWithRetryGo config ctxDone transport randSrc parseTime now fuel
          attempt last attempts waits checks).resp = none := by
  intro fuel
  induction fuel with
  | zero =>
    intro attempt last attempts waits checks _ hpos
    exact absurd hpos (lt_irrefl 0)
  | succ f ih =>
    intro attempt last attempts waits checks hsum _
    by_cases hA : attempt = config.MaxRetries
    · have hf : f = 0 := by omega
      subst hf
      subst hA
      simp [doWithRetryGo, hctx, htr, shouldRetry]
    · have hf : 0 < f := by omega
      have hrec := ih (attempt + 1) (none, some (msgs attempt)) (attempts + 1)
        (waits ++ [calculateBackoff parseTime now (randSrc attempt) attempt
          config none])
        (checks ++ [2 * attempt] ++ [2 * attempt + 1]) (by omega) hf
      simp only [doWithRetryGo, hctx, htr, shouldRetry, Bool.not_true,
        Bool.false_eq_true, if_false, if_neg hA]
      refine ⟨?_, ?_, ?_⟩
      · rw [hrec.1]; omega
      · exact hrec.2.1
      · exact hrec.2.2

/-- Running the loop against a transport that yields a retryable HTTP
response on every attempt consumes all remaining iterations and ends with the
last response and a nil error: no retries-exhausted wrap on this path. -/
lemma doWithRetryGo_retryableResponse_exhausts (config : RetryConfig)
    (ctxDone : Nat → Bool) (transport : Nat → AttemptOutcome)
    (randSrc : Nat → ℚ) (parseTime : String → Option Int) (now : Int)
    (resps : Nat → Response) (hctx : ∀ c, ctxDone c = false)
    (htr : ∀ i, transport i = .response (resps i))
    (hretry : ∀ i, shouldRetry (.response (resps i)) = true) :
    ∀ (fuel attempt : Nat) (last : Option Response × Option String)
      (attempts : Nat) (waits : List ℚ) (checks : List Nat),
      attempt + fuel = config.MaxRetries + 1 → 0 < fuel →
      (doWithRetryGo config ctxDone transport randSrc parseTime now fuel
          attempt last attempts waits checks).attempts = attempts + fuel ∧
      (doWithRetryGo config ctxDone transport randSrc parseTime now fuel
          attempt last attempts waits checks).error = none ∧
      (doWithRetryGo config ctxDone transport randSrc parseTime now fuel
          attempt last attempts waits checks).resp =
        some (resps config.MaxRetries) := by
  intro fuel
  induction fuel with
  | zero =>
    intro attempt last attempts waits checks _ hpos
    exact absurd hpos (lt_irrefl 0)
  | succ f ih =>
    intro attempt last attempts waits checks hsum _
    have h2xx := shouldRetry_response_not_2xx (resps attempt) (hretry attempt)
    by_cases hA : attempt = config.MaxRetries
    · have hf : f = 0 := by omega
      subst hf
      subst hA
      simp [doWithRetryGo, hctx, htr, hretry, h2xx]
    · have hf : 0 < f := by omega
      have hrec := ih (attempt + 1) (some (resps attempt), none) (attempts + 1)
        (waits ++ [calculateBackoff parseTime now (randSrc attempt) attempt
          config (some (resps attempt))])
        (checks ++ [2 * attempt] ++ [2 * attempt + 1]) (by omega) hf
      simp only [doWithRetryGo, hctx, htr, hretry, h2xx, Bool.not_true,
        Bool.false_eq_true, if_false, if_neg hA]
      refine ⟨?_, ?_, ?_⟩
      · rw [hrec.1]; omega
      · exact hrec.2.1
      · exact hrec.2.2

/-- C1 counterexample: with the default policy (`MaxRetries = 3`), no
cancellation, and a transport that returns status 503 on every attempt, the
executor does perform 4 attempts, but it returns the last 503 response with a
nil error — no exhaustion failure and no "retries exhausted" wrap is
produced on this path, contradicting the claim as stated. -/
theorem doWithRetry_always503_counterexample :
    (doWithRetry DefaultRetryConfig (fun _ => false)
        (fun _ => .response ⟨503, "", Except.ok "service unavailable"⟩)
        (fun _ => 0) (fun _ => none) 0).attempts = 4 ∧
    (doWithRetry DefaultRetryConfig (fun _ => false)
        (fun _ => .response ⟨503, "", Except.ok "service unavailable"⟩)
        (fun _ => 0) (fun _ => none) 0).error = none := by
  constructor
  · rfl
  · rfl

/-- C1 (amended): with no cancellation and a transport whose every outcome is
retryable, the executor performs exactly `MaxRetries + 1` transport attempts
(4 for `MaxRetries = 3`). When every outcome is a transport-level failure it
returns an exhaustion failure wrapping the last failure message with the
explicit retries-exhausted marker; but when every outcome is a retryable HTTP
status (such as 503) it returns the last response with a nil error, so the
marker distinguishes transport-level exhaustion only, and the caller decodes
the final response into an ordinary structured error without the marker. -/
theorem doWithRetry_exhaustion_behavior (config : RetryConfig)
    (ctxDone : Nat → Bool) (transport : Nat → AttemptOutcome)
    (randSrc : Nat → ℚ) (parseTime : String → Option Int) (now : Int)
    (msgs : Nat → String) (resps : Nat → Response)
    (hctx : ∀ c, ctxDone c = false) :
    ((∀ i, transport i = .transportErr (msgs i)) →
      (doWithRetry config ctxDone transport randSrc parseTime now).attempts =
        config.MaxRetries + 1 ∧
      (doWithRetry config ctxDone transport randSrc parseTime now).error =
        some (.retriesExhausted config.MaxRetries (msgs config.MaxRetries)) ∧
      (doWithRetry config ctxDone transport randSrc parseTime now).resp =
        none) ∧
    ((∀ i, transport i = .response (resps i)) →
      (∀ i, shouldRetry (.response (resps i)) = true) →
      (doWithRetry config ctxDone transport randSrc parseTime now).attempts =
        config.MaxRetries + 1 ∧
      (doWithRetry config ctxDone transport randSrc parseTime now).error =
        none ∧
      (doWithRetry config ctxDone transport randSrc parseTime now).resp =
        some (resps config.MaxRetries)) := by
  constructor
  · intro htr
    have h := doWithRetryGo_transportErr_exhausts config ctxDone transport
      randSrc parseTime now msgs hctx htr (config.MaxRetries + 1) 0
      (none, none) 0 [] [] (by omega) (by omega)
    exact ⟨by simpa [doWithRetry] using h.1, h.2.1, h.2.2⟩
  · intro htr hretry
    have h := doWithRetryGo_retryableResponse_exhausts config ctxDone
      transport randSrc parseTime now resps hctx htr hretry
      (config.MaxRetries + 1) 0 (none, none) 0 [] [] (by omega) (by omega)
    exact ⟨by simpa [doWithRetry] using h.1, h.2.1, h.2.2⟩

/-- Concrete instances of the exhaustion behaviour at the default policy: a
transport failing at the transport level on every attempt, and one returning
503 on every attempt. -/
theorem doWithRetry_exhaustion_behavior_witness :
    ((doWithRetry DefaultRetryConfig (fun _ => false)
        (fun _ => .transportErr "connection refused") (fun _ => 0)
        (fun _ => none) 0).attempts = DefaultRetryConfig.MaxRetries + 1 ∧
      (doWithRetry DefaultRetryConfig (fun _ => false)
          (fun _ => .transportErr "connection refused") (fun _ => 0)
          (fun _ => none) 0).error =
        some (.retriesExhausted DefaultRetryConfig.MaxRetries
          "connection refused")) ∧
    ((doWithRetry DefaultRetryConfig (fun _ => false)
        (fun _ => .response ⟨502, "", Except.ok ""⟩) (fun _ => 0)
        (fun _ => none) 0).attempts = DefaultRetryConfig.MaxRetries + 1 ∧
      (doWithRetry DefaultRetryConfig (fun _ => false)
          (fun _ => .response ⟨502, "", Except.ok ""⟩) (fun _ => 0)
          (fun _ => none) 0).error = none) := by
  constructor
  · have h := (doWithRetry_exhaustion_behavior DefaultRetryConfig
      (fun _ => false) (fun _ => .transportErr "connection refused")
      (fun _ => 0) (fun _ => none) 0 (fun _ => "connection refused")
      (fun _ => ⟨502, "", Except.ok ""⟩) (fun _ => rfl)).1 (fun _ => rfl)
    exact ⟨h.1, h.2.1⟩
  · have h := (doWithRetry_exhaustion_behavior DefaultRetryConfig
      (fun _ => false) (fun _ => .response ⟨502, "", Except.ok ""⟩)
      (fun _ => 0) (fun _ => none) 0 (fun _ => "connection refused")
      (fun _ => ⟨502, "", Except.ok ""⟩) (fun _ => rfl)).2 (fun _ => rfl)
      (fun _ => rfl)
    exact ⟨h.1, h.2.1⟩

/-- C7: when the first attempt yields a non-2xx response the classifier does
not retry (any non-retryable HTTP failure, e.g. 400, 403 or 404), the retry
loop performs exactly one transport attempt regardless of the remaining
retry budget and hands the response back with a nil error; the modelled
`doRequest` then decodes it through `parseErrorResponse` into the structured
error of that response, and when the status is 404 that error's `IsNotFound`
predicate holds. -/
theorem doWithRetry_nonretryable_single_attempt (config : RetryConfig)
    (ctxDone : Nat → Bool) (transport : Nat → AttemptOutcome)
    (randSrc : Nat → ℚ) (parseTime : String → Option Int) (now : Int)
    (unmarshal : String → Option HubSpotError) (resp : Response)
    (hctx0 : ctxDone 0 = false) (htr0 : transport 0 = .response resp)
    (h2xx : ¬(200 ≤ resp.StatusCode ∧ resp.StatusCode < 300))
    (hnr : shouldRetry (.response resp) = false) :
    (doWithRetry config ctxDone transport randSrc parseTime now).attempts =
      1 ∧
    (doWithRetry config ctxDone transport randSrc parseTime now).resp =
      some resp ∧
    (doWithRetry config ctxDone transport randSrc parseTime now).error =
      none ∧
    doRequest config ctxDone transport randSrc parseTime now unmarshal =
      .error (.hubspot (parseErrorResponse unmarshal resp.StatusCode
        resp.body)) ∧
    (resp.StatusCode = 404 →
      (parseErrorResponse unmarshal resp.StatusCode resp.body).IsNotFound =
        true) := by
  have hrun : doWithRetry config ctxDone transport randSrc parseTime now =
      ⟨some resp, none, 1, [], [0]⟩ := by
    simp [doWithRetry, doWithRetryGo, hctx0, htr0, h2xx, hnr]
  have hcond : resp.StatusCode < 200 ∨ 300 ≤ resp.StatusCode := by omega
  refine ⟨?_, ?_, ?_, ?_, ?_⟩
  · rw [hrun]
  · rw [hrun]
  · rw [hrun]
  · simp only [doRequest, hrun]
    simp [hcond]
  · intro h404
    simp [HubSpotError.IsNotFound, parseErrorResponse_statusCode, h404]

/-- Concrete instance of the single-attempt 404 behaviour at the default
policy, with a JSON decoder that fails on the body. -/
theorem doWithRetry_nonretryable_single_attempt_witness :
    (doWithRetry DefaultRetryConfig (fun _ => false)
        (fun _ => .response ⟨404, "", Except.ok "missing"⟩) (fun _ => 0)
        (fun _ => none) 0).attempts = 1 ∧
    (doWithRetry DefaultRetryConfig (fun _ => false)
        (fun _ => .response ⟨404, "", Except.ok "missing"⟩) (fun _ => 0)
        (fun _ => none) 0).resp = some ⟨404, "", Except.ok "missing"⟩ ∧
    (doWithRetry DefaultRetryConfig (fun _ => false)
        (fun _ => .response ⟨404, "", Except.ok "missing"⟩) (fun _ => 0)
        (fun _ => none) 0).error = none ∧
    doRequest DefaultRetryConfig (fun _ => false)
        (fun _ => .response ⟨404, "", Except.ok "missing"⟩) (fun _ => 0)
        (fun _ => none) 0 (fun _ => none) =
      .error (.hubspot (parseErrorResponse (fun _ => none)
        (⟨404, "", Except.ok "missing"⟩ : Response).StatusCode
        (⟨404, "", Except.ok "missing"⟩ : Response).body)) ∧
    (parseErrorResponse (fun _ => none)
        (⟨404, "", Except.ok "missing"⟩ : Response).StatusCode
        (⟨404, "", Except.ok "missing"⟩ : Response).body).IsNotFound =
      true := by
  have h := doWithRetry_nonretryable_single_attempt DefaultRetryConfig
    (fun _ => false) (fun _ => .response ⟨404, "", Except.ok "missing"⟩)
    (fun _ => 0) (fun _ => none) 0 (fun _ => none)
    ⟨404, "", Except.ok "missing"⟩ rfl rfl (by decide) rfl
  exact ⟨h.1, h.2.1, h.2.2.1, h.2.2.2.1, h.2.2.2.2 rfl⟩

/-- Cancellation discipline of the loop, relative to an already-consulted
checkpoint prefix: the pre-attempt checkpoint `2*i` is consulted (and read
false) for every performed attempt `i`, the wait checkpoint `2*i+1` likewise
for every wait taken, any result other than `ctxCancelled` is produced with
every consulted checkpoint read false, and a checkpoint read true ends the
run as `ctxCancelled` with no attempt at or beyond it. -/
lemma doWithRetryGo_cancellation_spec (config : RetryConfig)
    (ctxDone : Nat → Bool) (transport : Nat → AttemptOutcome)
    (randSrc : Nat → ℚ) (parseTime : String → Option Int) (now : Int) :
    ∀ (fuel attempt : Nat) (last : Option Response × Option String)
      (waits : List ℚ) (checks : List Nat),
      (∀ c ∈ checks, ctxDone c = false) →
      (∀ i < attempt, 2 * i ∈ checks) →
      (∀ i, i + 1 ≤ attempt → 2 * i + 1 ∈ checks) →
      (∀ i < (doWithRetryGo config ctxDone transport randSrc parseTime now
          fuel attempt last attempt waits checks).attempts,
        2 * i ∈ (doWithRetryGo config ctxDone transport randSrc parseTime now
          fuel attempt last attempt waits checks).checks ∧
        ctxDone (2 * i) = false) ∧
      (∀ i, i + 1 < (doWithRetryGo config ctxDone transport randSrc parseTime
          now fuel attempt last attempt waits checks).attempts →
        2 * i + 1 ∈ (doWithRetryGo config ctxDone transport randSrc parseTime
          now fuel attempt last attempt waits checks).checks ∧
        ctxDone (2 * i + 1) = false) ∧
      ((doWithRetryGo config ctxDone transport randSrc parseTime now fuel
          attempt last attempt waits checks).error ≠
          some RetryError.ctxCancelled →
        ∀ c ∈ (doWithRetryGo config ctxDone transport randSrc parseTime now
          fuel attempt last attempt waits checks).checks,
          ctxDone c = false) ∧
      (∀ c ∈ (doWithRetryGo config ctxDone transport randSrc parseTime now
          fuel attempt last attempt waits checks).checks,
        ctxDone c = true →
        (doWithRetryGo config ctxDone transport randSrc parseTime now fuel
          attempt last attempt waits checks).error =
          some RetryError.ctxCancelled ∧
        (doWithRetryGo config ctxDone transport randSrc parseTime now fuel
          attempt last attempt waits checks).attempts ≤ (c + 1) / 2) := by
  intro fuel
  induction fuel with
  | zero =>
    intro attempt last waits checks H2 H3 H4
    simp only [doWithRetryGo]
    refine ⟨?_, ?_, ?_, ?_⟩
    · intro i hi
      exact ⟨H3 i hi, H2 _ (H3 i hi)⟩
    · intro i hi
      have hle : i + 1 ≤ attempt := Nat.le_of_lt hi
      exact ⟨H4 i hle, H2 _ (H4 i hle)⟩
    · intro _ c hc
      exact H2 c hc
    · intro c hc htrue
      rw [H2 c hc] at htrue
      exact absurd htrue (by simp)
  | succ f ih =>
    intro attempt last waits checks H2 H3 H4
    simp only [doWithRetryGo]
    have hmem1 : (2 * attempt) ∈ checks ++ [2 * attempt] :=
      List.mem_append.mpr (Or.inr (List.mem_singleton.mpr rfl))
    by_cases hd : ctxDone (2 * attempt) = true
    · rw [if_pos hd]
      refine ⟨?_, ?_, ?_, ?_⟩
      · intro i hi
        exact ⟨List.mem_append.mpr (Or.inl (H3 i hi)), H2 _ (H3 i hi)⟩
      · intro i hi
        have hle : i + 1 ≤ attempt := Nat.le_of_lt hi
        exact ⟨List.mem_append.mpr (Or.inl (H4 i hle)), H2 _ (H4 i hle)⟩
      · intro hne
        exact absurd rfl hne
      · intro c hc htrue
        rcases List.mem_append.mp hc with h | h
        · rw [H2 c h] at htrue
          exact absurd htrue (by simp)
        · rw [List.mem_singleton.mp h]
          refine ⟨rfl, ?_⟩
          show attempt ≤ (2 * attempt + 1) / 2
          omega
    · rw [if_neg hd]
      have hdf : ctxDone (2 * attempt) = false := by
        simpa using hd
      have hfalse1 : ∀ c ∈ checks ++ [2 * attempt], ctxDone c = false := by
        intro c hc
        rcases List.mem_append.mp hc with h | h
        · exact H2 c h
        · rw [List.mem_singleton.mp h]
          exact hdf
      have hP1 : ∀ i < attempt + 1,
          2 * i ∈ checks ++ [2 * attempt] ∧ ctxDone (2 * i) = false := by
        intro i hi
        rcases Nat.lt_succ_iff_lt_or_eq.mp hi with h | h
        · exact ⟨List.mem_append.mpr (Or.inl (H3 i h)), H2 _ (H3 i h)⟩
        · subst h
          exact ⟨hmem1, hdf⟩
      have hP2 : ∀ i, i + 1 < attempt + 1 →
          2 * i + 1 ∈ checks ++ [2 * attempt] ∧ ctxDone (2 * i + 1) = false := by
        intro i hi
        have hle : i + 1 ≤ attempt := by omega
        exact ⟨List.mem_append.mpr (Or.inl (H4 i hle)), H2 _ (H4 i hle)⟩
      have hP4 : ∀ (eo : Option RetryError),
          ∀ c ∈ checks ++ [2 * attempt], ctxDone c = true →
            eo = some RetryError.ctxCancelled ∧ attempt + 1 ≤ (c + 1) / 2 := by
        intro eo c hc htrue
        rw [hfalse1 c hc] at htrue
        exact absurd htrue (by simp)
      have hcs2 : ∀ c ∈ checks ++ [2 * attempt],
          c ∈ checks ++ [2 * attempt] ++ [2 * attempt + 1] :=
        fun c hc => List.mem_append.mpr (Or.inl hc)
      have hmem2 : (2 * attempt + 1) ∈
          checks ++ [2 * attempt] ++ [2 * attempt + 1] :=
        List.mem_append.mpr (Or.inr (List.mem_singleton.mpr rfl))
      rcases hout : transport attempt with msg | resp
      all_goals simp only [hout]
      · -- transport-level failure branch
        by_cases hnr : (!shouldRetry (.transportErr msg)) = true
        · rw [if_pos hnr]
          exact ⟨hP1, hP2, fun _ => hfalse1, hP4 _⟩
        · rw [if_neg hnr]
          by_cases hmax : attempt = config.MaxRetries
          · rw [if_pos hmax]
            exact ⟨hP1, hP2, fun _ => hfalse1, hP4 _⟩
          · rw [if_neg hmax]
            by_cases hw : ctxDone (2 * attempt + 1) = true
            · rw [if_pos hw]
              refine ⟨?_, ?_, ?_, ?_⟩
              · intro i hi
                obtain ⟨hm, hf⟩ := hP1 i hi
                exact ⟨hcs2 _ hm, hf⟩
              · intro i hi
                obtain ⟨hm, hf⟩ := hP2 i hi
                exact ⟨hcs2 _ hm, hf⟩
              · intro hne
                exact absurd rfl hne
              · intro c hc htrue
                rcases List.mem_append.mp hc with h | h
                · rw [hfalse1 c h] at htrue
                  exact absurd htrue (by simp)
                · rw [List.mem_singleton.mp h]
                  refine ⟨rfl, ?_⟩
                  show attempt + 1 ≤ (2 * attempt + 1 + 1) / 2
                  omega
            · rw [if_neg hw]
              have hwf : ctxDone (2 * attempt + 1) = false := by
                simpa using hw
              refine ih (attempt + 1) (none, some msg) _ _ ?_ ?_ ?_
              · intro c hc
                rcases List.mem_append.mp hc with h | h
                · exact hfalse1 c h
                · rw [List.mem_singleton.mp h]
                  exact hwf
              · intro i hi
                exact hcs2 _ (hP1 i hi).1
              · intro i hi
                by_cases h : i + 1 ≤ attempt
                · exact hcs2 _ (List.mem_append.mpr (Or.inl (H4 i h)))
                · have hieq : i = attempt := by omega
                  subst hieq
                  exact hmem2
      · -- received-response branch
        by_cases h2xx : 200 ≤ resp.StatusCode ∧ resp.StatusCode < 300
        · rw [if_pos h2xx]
          exact ⟨hP1, hP2, fun _ => hfalse1, hP4 _⟩
        · rw [if_neg h2xx]
          by_cases hnr : (!shouldRetry (.response resp)) = true
          · rw [if_pos hnr]
            exact ⟨hP1, hP2, fun _ => hfalse1, hP4 _⟩
          · rw [if_neg hnr]
            by_cases hmax : attempt = config.MaxRetries
            · rw [if_pos hmax]
              exact ⟨hP1, hP2, fun _ => hfalse1, hP4 _⟩
            · rw [if_neg hmax]
              by_cases hw : ctxDone (2 * attempt + 1) = true
              · rw [if_pos hw]
                refine ⟨?_, ?_, ?_, ?_⟩
                · intro i hi
                  obtain ⟨hm, hf⟩ := hP1 i hi
                  exact ⟨hcs2 _ hm, hf⟩
                · intro i hi
                  obtain ⟨hm, hf⟩ := hP2 i hi
                  exact ⟨hcs2 _ hm, hf⟩
                · intro hne
                  exact absurd rfl hne
                · intro c hc htrue
                  rcases List.mem_append.mp hc with h | h
                  · rw [hfalse1 c h] at htrue
                    exact absurd htrue (by simp)
                  · rw [List.mem_singleton.mp h]
                    refine ⟨rfl, ?_⟩
                    show attempt + 1 ≤ (2 * attempt + 1 + 1) / 2
                    omega
              · rw [if_neg hw]
                have hwf : ctxDone (2 * attempt + 1) = false := by
                  simpa using hw
                refine ih (attempt + 1) (some resp, none) _ _ ?_ ?_ ?_
                · intro c hc
                  rcases List.mem_append.mp hc with h | h
                  · exact hfalse1 c h
                  · rw [List.mem_singleton.mp h]
                    exact hwf
                · intro i hi
                  exact hcs2 _ (hP1 i hi).1
                · intro i hi
                  by_cases h : i + 1 ≤ attempt
                  · exact hcs2 _ (List.mem_append.mpr (Or.inl (H4 i h)))
                  · have hieq : i = attempt := by omega
                    subst hieq
                    exact hmem2

/-- C8: for every execution of the retry loop, the execution context is
consulted at checkpoint `2*i` before every performed attempt `i` and at
checkpoint `2*i+1` during every backoff wait, and every such consulted
checkpoint read false; any result other than the context's cancellation
error is produced with cancellation never observed; and a checkpoint read
true ends the call as the cancellation error with no transport attempt
performed at or after that checkpoint. -/
theorem doWithRetry_cancellation_checks (config : RetryConfig)
    (ctxDone : Nat → Bool) (transport : Nat → AttemptOutcome)
    (randSrc : Nat → ℚ) (parseTime : String → Option Int) (now : Int) :
    (∀ i < (doWithRetry config ctxDone transport randSrc parseTime
        now).attempts,
      2 * i ∈ (doWithRetry config ctxDone transport randSrc parseTime
        now).checks ∧ ctxDone (2 * i) = false) ∧
    (∀ i, i + 1 < (doWithRetry config ctxDone transport randSrc parseTime
        now).attempts →
      2 * i + 1 ∈ (doWithRetry config ctxDone transport randSrc parseTime
        now).checks ∧ ctxDone (2 * i + 1) = false) ∧
    ((doWithRetry config ctxDone transport randSrc parseTime now).error ≠
        some RetryError.ctxCancelled →
      ∀ c ∈ (doWithRetry config ctxDone transport randSrc parseTime
        now).checks, ctxDone c = false) ∧
    (∀ c ∈ (doWithRetry config ctxDone transport randSrc parseTime
        now).checks, ctxDone c = true →
      (doWithRetry config ctxDone transport randSrc parseTime now).error =
        some RetryError.ctxCancelled ∧
      (doWithRetry config ctxDone transport randSrc parseTime now).attempts ≤
        (c + 1) / 2) :=
  doWithRetryGo_cancellation_spec config ctxDone transport randSrc parseTime
    now (config.MaxRetries + 1) 0 (none, none) [] []
    (by intro c hc; exact absurd hc (List.not_mem_nil c))
    (by intro i hi; exact absurd hi (Nat.not_lt_zero i))
    (by intro i hi; exact absurd hi (by omega))

/-- Concrete instance of the cancellation discipline: with the context
cancelled from the first backoff wait onward (checkpoint 1) and a transport
that always returns 503, the call ends as the cancellation error after a
single attempt. -/
theorem doWithRetry_cancellation_checks_witness :
    (doWithRetry DefaultRetryConfig (fun c => c == 1)
        (fun _ => .response ⟨503, "", Except.ok ""⟩) (fun _ => 0)
        (fun _ => none) 0).error = some RetryError.ctxCancelled ∧
    (doWithRetry DefaultRetryConfig (fun c => c == 1)
        (fun _ => .response ⟨503, "", Except.ok ""⟩) (fun _ => 0)
        (fun _ => none) 0).attempts ≤ (1 + 1) / 2 := by
  have hchecks : (doWithRetry DefaultRetryConfig (fun c => c == 1)
      (fun _ => .response ⟨503, "", Except.ok ""⟩) (fun _ => 0)
      (fun _ => none) 0).checks = [0, 1] := by rfl
  exact (doWithRetry_cancellation_checks DefaultRetryConfig (fun c => c == 1)
    (fun _ => .response ⟨503, "", Except.ok ""⟩) (fun _ => 0)
    (fun _ => none) 0).2.2.2 1 (by rw [hchecks]; simp) rfl

end HubSpot
